import Mathlib

/-!
Verification of the tello drone-control library's packet codec, stick
packing, autopilot control logic, sequence counter, flight-log parsing
and picture saving, as shallowly embedded Lean definitions translated
from the Go sources (doc.go, tello.go, autopilot.go, flog.go,
flightCommands.go, pictures.go).

Machine integers are modelled as `Nat`/`Int` with explicit wrapping
(`% 256`, `% 65536`) exactly where the Go code's fixed-width types can
overflow or underflow.  Fallible operations (Go runtime panics such as
slice-bounds violations) are modelled with `Option`, `none` marking a
panic.  Go's IEEE-754 float32 values that are only moved byte-for-byte
(MVO positions, IMU quaternions) are represented by their raw 32-bit
little-endian bit patterns; where a float computation feeds an integer
result (`jsInt16ToTello`) it is modelled by exact rational arithmetic,
which agrees with the float32 computation at the inputs considered here.
-/

namespace Tello

/-- Internal representation of a Tello protocol message (struct `packet`
in messages.go / doc.go).  Byte and uint16 fields are `Nat`; the payload
is a byte list. -/
structure Packet where
  header : Nat
  size13 : Nat
  crc8 : Nat
  fromDrone : Bool
  toDrone : Bool
  packetType : Nat
  packetSubtype : Nat
  messageID : Nat
  sequence : Nat
  payload : List Nat
  crc16 : Nat
deriving DecidableEq, Repr

/-- Smallest possible raw packet (`minPktSize` in doc.go). -/
def minPktSize : Nat := 11

/-- Serialisation of a packet into its raw buffer, `packetToBuffer` in
doc.go.  Modelled from the spec: the CRC routines `calculateCRC8` and
`calculateCRC16` live in a source file (crc.go) that is not part of the
provided sources; the spec states only that the two CRC tables are
parameters of the protocol, so the two functions are taken here as
explicit parameters ranging over arbitrary byte-sequence functions.
Everything else follows doc.go lines 728-759: bytes 1/2 carry the
13-bit size shifted left 3, byte 3 is the CRC-8 of bytes 0-2, byte 4
packs subtype/type and the two direction flags, bytes 5-8 are message
ID and sequence little-endian, then the payload, then the CRC-16
little-endian over all preceding bytes. -/
def packetToBuffer (crc8fn : List Nat → Nat) (crc16fn : List Nat → Nat)
    (pkt : Packet) : List Nat :=
  let payloadSize := pkt.payload.length
  let packetSize := minPktSize + payloadSize
  let b1 := (packetSize <<< 3) % 256
  let b2 := (packetSize >>> 5) % 256
  let b3 := crc8fn [pkt.header, b1, b2]
  let b4 := (((pkt.packetSubtype + ((pkt.packetType <<< 3) % 256)) % 256)
              ||| (if pkt.toDrone then 0x40 else 0))
              ||| (if pkt.fromDrone then 0x80 else 0)
  let body := [pkt.header, b1, b2, b3, b4,
               pkt.messageID % 256, (pkt.messageID >>> 8) % 256,
               pkt.sequence % 256, (pkt.sequence >>> 8) % 256] ++ pkt.payload
  let c16 := crc16fn body
  body ++ [c16 % 256, (c16 >>> 8) % 256]

/-- Deserialisation of a raw buffer into a packet, `bufferToPacket` in
doc.go lines 695-712.  The Go function indexes the buffer without any
bounds checking and computes `payloadSize := pkt.size13 - 11` in uint16
arithmetic (wrapping below zero); every buffer access that would panic
at runtime (index or slice out of range) is modelled by returning
`none`.  The uint16 subtractions `size13 - 11`, `size13 - 1` and
`size13 - 2` are written `(size13 + 65536 - k) % 65536`. -/
def bufferToPacket (buff : List Nat) : Option Packet :=
  match buff.get? 0, buff.get? 1, buff.get? 2, buff.get? 3, buff.get? 4,
        buff.get? 5, buff.get? 6, buff.get? 7, buff.get? 8 with
  | some b0, some b1, some b2, some b3, some b4,
    some b5, some b6, some b7, some b8 =>
    let size13 := (b1 + (b2 <<< 8)) >>> 3
    let payloadSize := (size13 + 65536 - 11) % 65536
    let payloadOpt : Option (List Nat) :=
      if payloadSize > 0 then
        if 9 + payloadSize ≤ buff.length then
          some ((buff.drop 9).take payloadSize)
        else
          none
      else
        some []
    match payloadOpt,
          buff.get? ((size13 + 65536 - 2) % 65536),
          buff.get? ((size13 + 65536 - 1) % 65536) with
    | some payload, some c16lo, some c16hi =>
      some { header := b0
             size13 := size13
             crc8 := b3
             fromDrone := (b4 &&& 0x80) == 1
             toDrone := (b4 &&& 0x40) == 1
             packetType := (b4 >>> 3) &&& 0x07
             packetSubtype := b4 &&& 0x07
             messageID := (b6 <<< 8) ||| b5
             sequence := (b8 <<< 8) ||| b7
             payload := payload
             crc16 := (c16hi <<< 8) + c16lo }
    | _, _, _ => none
  | _, _, _, _, _, _, _, _, _ => none

/-- Concrete check for C9: an 11-byte frame whose direction/type byte is
0xFF (both direction bits set) still decodes with both flags false. -/
def pktC9 : Packet :=
  { header := 204, size13 := 11, crc8 := 0, fromDrone := false,
    toDrone := false, packetType := 7, packetSubtype := 7,
    messageID := 0, sequence := 0, payload := [], crc16 := 0 }

/-!  Stick packing (tello.go `jsInt16ToTello`, `sendStickUpdate`). -/

/-- Conversion of an SDL int16 stick value to the Tello 11-bit range,
`jsInt16ToTello` in tello.go: `uint64(float32(sv)/49.672 + 1024)`.
The Go code computes in float32 and truncates toward zero; since the
result is always positive for int16 inputs, truncation is the floor,
and the float32 quotient rounds to the same floor as the exact rational
quotient at the inputs used below, so the function is modelled by exact
integer floor division: `jsInt16ToTello sv = floor(sv*1000/49672) + 1024`. -/
def jsInt16ToTello (sv : Int) : Nat :=
  (Int.fdiv (sv * 1000) 49672 + 1024).toNat

/-- The packed 48-bit stick field built in `sendStickUpdate`
(tello.go lines 638-644): Rx in bits 0-10, Ry in 11-21, Ly in 22-32,
Lx in 33-43, sports mode flag in bit 44. -/
def packedAxes (rx ry lx ly : Int) (sportsMode : Bool) : Nat :=
  let p0 := jsInt16ToTello rx &&& 0x07ff
  let p1 := p0 ||| ((jsInt16ToTello ry &&& 0x07ff) <<< 11)
  let p2 := p1 ||| ((jsInt16ToTello ly &&& 0x07ff) <<< 22)
  let p3 := p2 ||| ((jsInt16ToTello lx &&& 0x07ff) <<< 33)
  if sportsMode then p3 ||| (1 <<< 44) else p3

/-- First six payload bytes of the stick message, little-endian bytes of
`packedAxes` (tello.go lines 646-651); bytes 6-10 are the time suffix,
which does not depend on the axes. -/
def stickPayloadAxes (rx ry lx ly : Int) (sportsMode : Bool) : List Nat :=
  let pa := packedAxes rx ry lx ly sportsMode
  [pa % 256, (pa >>> 8) % 256, (pa >>> 16) % 256,
   (pa >>> 24) % 256, (pa >>> 32) % 256, (pa >>> 40) % 256]

/-!  Rotational autopilot (autopilot.go `AutoTurnToYawConfig`). -/

/-- Absolute value helper `int16Abs` from autopilot.go. -/
def int16Abs (x : Int) : Int := if x < 0 then -x else x

/-- Two's-complement interpretation of an integer as an int16 (the
value of a wrapping int16 computation). -/
def wrap16 (v : Int) : Int := (v + 32768) % 65536 - 32768

/-- Normalisation of a yaw to 0..359 as in `AutoTurnToYawConfig`:
negative values get 360 added (autopilot.go lines 192-195 for the
target and 233-235 for the current yaw). -/
def adjustYaw (y : Int) : Int := if y < 0 then 360 + y else y

/-- Delta computation of one `AutoTurnToYawConfig` tick (autopilot.go
lines 230-245): normalise both yaws, subtract, and when the absolute
difference exceeds 180 remap to the signed complement. -/
def yawDelta (targetYaw currentYaw : Int) : Int :=
  let adjustedTarget := adjustYaw targetYaw
  let adjustedCurrent := adjustYaw currentYaw
  let delta := adjustedTarget - adjustedCurrent
  let absDelta := int16Abs delta
  if absDelta ≤ 180 then delta
  else if delta > 0 then absDelta - 360
  else 360 - absDelta

/-!  Autopilot start calls (autopilot.go).  The synchronous bodies of
`AutoFlyToHeightConfig`, `AutoTurnToYawConfig` and `AutoFlyToXYConfig`
are modelled as state transformers returning the new control state and
the error (the Go error message string, or `none` on success; in the
success case the Go functions additionally start the navigation
goroutine, which is modelled separately as a per-tick function). -/

/-- Control-state fields of the `Tello` struct touched by the autopilot
start calls: the three per-axis-group activity flags, the home-point
validity flag and the four stick axes. -/
structure TelloCtl where
  autoHeight : Bool
  autoYaw : Bool
  autoXY : Bool
  homeValid : Bool
  ctrlLx : Int
  ctrlLy : Int
  ctrlRx : Int
  ctrlRy : Int
deriving DecidableEq, Repr

/-- Synchronous part of `AutoFlyToHeightConfig` (autopilot.go lines
75-98): clamp the speed (a local variable only), reject a target beyond
±300 dm, reject when already navigating vertically, otherwise set the
vertical-autopilot flag.  The error strings are the ones in the source
(including the `Verical` typo). -/
def AutoFlyToHeightConfig (st : TelloCtl) (dm : Int) (speed : Rat)
    (tolerance : Int) : TelloCtl × Option String :=
  if dm > 300 ∨ dm < -300 then
    (st, some "Verical navigation limit exceeded")
  else if st.autoHeight then
    (st, some "Already navigating vertically")
  else
    ({ st with autoHeight := true }, none)

/-- Synchronous part of `AutoTurnToYawConfig` (autopilot.go lines
179-207): reject a target outside -180..180, reject when already
navigating rotationally, otherwise set the rotational flag. -/
def AutoTurnToYawConfig (st : TelloCtl) (targetYaw : Int) (speed : Rat)
    (tolerance : Int) : TelloCtl × Option String :=
  if targetYaw < -180 ∨ targetYaw > 180 then
    (st, some "Target yaw must be between -180 and +180")
  else if st.autoYaw then
    (st, some "Already navigating rotationally")
  else
    ({ st with autoYaw := true }, none)

/-- Synchronous part of `AutoFlyToXYConfig` (autopilot.go lines
390-421): reject a target beyond ±200 m, reject when already navigating
horizontally, reject when no home point is set, otherwise set the
horizontal flag. -/
def AutoFlyToXYConfig (st : TelloCtl) (targetX targetY speed tolerance : Rat) :
    TelloCtl × Option String :=
  if targetX > 200 ∨ targetY > 200 ∨ targetX < -200 ∨ targetY < -200 then
    (st, some "Horizontal navigation limit exceeded")
  else if st.autoXY then
    (st, some "Already AutoFlying horizontally")
  else if st.homeValid = false then
    (st, some "Cannot AutoFly as home point has not be set (or is invalid)")
  else
    ({ st with autoXY := true }, none)

/-!  Vertical autopilot tick (autopilot.go `AutoFlyToHeightConfig`
goroutine body, lines 104-147). -/

/-- Go conversion of a float value to int16 truncates toward zero;
for a rational this is `num / den` with Int t-division. -/
def truncQ (q : Rat) : Int := Int.tdiv q.num q.den

/-- State touched by one vertical-autopilot tick: the left-Y stick axis
and the vertical-activity flag. -/
structure HeightCtl where
  ctrlLy : Int
  autoHeight : Bool
deriving DecidableEq, Repr

/-- One tick of the vertical autopilot goroutine (autopilot.go lines
104-147): if cancelled, zero the Y axis and exit; else compute
`delta := dm - tello.fd.Height` - an int16 subtraction of two int16
values, so it wraps, modelled by `wrap16` - and run the switch in
source order: `delta > 4` full throttle, `delta > 0` half throttle,
`delta < -4`, `delta < 0`, then `int16Abs delta <= tolerance` stops
the navigation.  The speed argument is the already-clamped speed (the
Config body clamps it to 0.25..1 before starting the goroutine);
`fast = 32767 * speed` and `slow = 16384 * speed` are float32 products
truncated to int16. -/
def autoFlyToHeightTick (dm height : Int) (speed : Rat) (tolerance : Int)
    (st : HeightCtl) : HeightCtl :=
  if st.autoHeight = false then
    { st with ctrlLy := 0 }
  else
    let delta := wrap16 (dm - height)
    if delta > 4 then { st with ctrlLy := truncQ (32767 * speed) }
    else if delta > 0 then { st with ctrlLy := truncQ (16384 * speed) }
    else if delta < -4 then { st with ctrlLy := truncQ (-32767 * speed) }
    else if delta < 0 then { st with ctrlLy := truncQ (-16384 * speed) }
    else if int16Abs delta ≤ tolerance then { st with autoHeight := false }
    else st

/-!  Control sequence counter.  Every command func in tello.go,
flightCommands.go, flog.go and pictures.go holds `ctrlMu`, increments
`ctrlSeq` (uint16, so mod 2^16) and sends a packet carrying the new
counter value; `sendStickUpdate` sends sequence 0 and does not touch
`ctrlSeq`. -/

/-- A send on the control socket, as far as the sequence counter is
concerned: either a sequenced command (TakeOff, Land, queries, acks,
...) or a stick update. -/
inductive CtrlOp where
  | cmd : CtrlOp
  | stick : CtrlOp
deriving DecidableEq, Repr

/-- Effect of one send on the uint16 `ctrlSeq` counter: commands do
`ctrlSeq++` (wrapping), stick updates leave it alone. -/
def stepSeq (s : Nat) : CtrlOp → Nat
  | CtrlOp.cmd => (s + 1) % 65536
  | CtrlOp.stick => s

/-- The sequence value carried on the wire by a send performed with
counter value `s`: commands send the incremented counter, stick
messages always send 0 (`pkt.sequence = 0` in `sendStickUpdate`). -/
def sentSeq (s : Nat) : CtrlOp → Nat
  | CtrlOp.cmd => (s + 1) % 65536
  | CtrlOp.stick => 0

/-- Counter value after a sequence of sends, starting from `s`
(the Go zero value of `ctrlSeq` is 0 at connection time). -/
def seqAfterOps (s : Nat) (ops : List CtrlOp) : Nat := ops.foldl stepSeq s

/-- Number of sequenced commands in a list of sends. -/
def countCmds : List CtrlOp → Nat
  | [] => 0
  | CtrlOp.cmd :: rest => countCmds rest + 1
  | CtrlOp.stick :: rest => countCmds rest

/-!  Picture saving (pictures.go `SaveAllPics`, first revision, lines
118-131).  Disk writes (`ioutil.WriteFile`) are modelled by a success
oracle mapping the written filename and contents to a Bool. -/

/-- In-memory completed file (struct `fileData`): whether its type is
JPEG and its reassembled bytes. -/
structure GoFile where
  isJPEG : Bool
  bytes : List Nat
deriving DecidableEq, Repr

/-- The loop body of `SaveAllPics`: walk the completed-files list; for
each JPEG build the filename from the prefix and the running count,
attempt the write, `break` out of the loop on the first failure, else
increment the count. -/
def saveLoop (writeOk : String → List Nat → Bool) (pre : String) :
    List GoFile → Nat → Nat
  | [], np => np
  | f :: rest, np =>
    if f.isJPEG then
      if writeOk (pre ++ "_" ++ toString np ++ ".jpg") f.bytes then
        saveLoop writeOk pre rest (np + 1)
      else
        np
    else
      saveLoop writeOk pre rest np

/-- The `SaveAllPics` func of pictures.go: runs the write loop, then
unconditionally clears `tello.files` and executes `return np, nil`
(discarding the captured write error).  Result: count written, returned
error, remaining files list. -/
def SaveAllPics (writeOk : String → List Nat → Bool) (pre : String)
    (files : List GoFile) : Nat × Option String × List GoFile :=
  (saveLoop writeOk pre files 0, none, [])

/-- The count described by the claim: the number of JPEG files in the
longest prefix of the JPEG sublist whose writes (with the filenames the
code generates) all succeed, i.e. successes counted up to the first
failing write. -/
def specWrittenCount (writeOk : String → List Nat → Bool) (pre : String) :
    List GoFile → Nat → Nat
  | [], np => np
  | f :: rest, np =>
    if writeOk (pre ++ "_" ++ toString np ++ ".jpg") f.bytes then
      specWrittenCount writeOk pre rest (np + 1)
    else
      np

/-!  Flight-log parsing (flog.go `parseLogPacket`, final revision at
lines 119-182).  MVO positions and IMU quaternions are float32 values
that the Go code merely assembles from four little-endian bytes
(`bytesToFloat32` is `Float32frombits` of `LittleEndian.Uint32`); they
are represented here by those 32-bit words.  The derived IMU yaw (a
float64 atan2 of the quaternion) is outside this integer model and is
not part of the claims. -/

/-- Go's `int16(lo) + int16(hi)<<8` on two bytes: the signed 16-bit
value of the little-endian pair. -/
def int16FromBytes (lo hi : Nat) : Int := wrap16 ((lo : Int) + 256 * hi)

/-- Go's `binary.LittleEndian.Uint32` on four bytes (the bit pattern
handed to `math.Float32frombits` by `bytesToFloat32`). -/
def leU32 (b0 b1 b2 b3 : Nat) : Nat :=
  b0 + 256 * b1 + 65536 * b2 + 16777216 * b3

/-- Flight-data fields written by `parseLogPacket`. -/
structure LogFD where
  velX : Int
  velY : Int
  velZ : Int
  posX : Nat
  posY : Nat
  posZ : Nat
  quatW : Nat
  quatX : Nat
  quatY : Nat
  quatZ : Nat
  temperature : Int
deriving DecidableEq, Repr

/-- The XOR-decoded buffer of one log record: `xorBuf[i] = data[pos+i]
^ xorVal` for `i < recLen` with `pos+i` in range, 0 otherwise (the Go
code zero-initialises the 256-byte `xorBuf`). -/
def xorByte (data : List Nat) (pos recLen xorVal i : Nat) : Nat :=
  if i < recLen ∧ pos + i < data.length then data.getD (pos + i) 0 ^^^ xorVal
  else 0

/-- The record-scanning loop of `parseLogPacket` (flog.go lines
124-181), fuel-indexed: while `pos < len(data)-6`, stop on a missing
`U` (0x55) separator, read the 16-bit record length, the 16-bit record
type and the XOR key from the record header, XOR-decode the body, and
for a NewMVO (0x001D) record update velocities and positions gated by
the flags byte read (undecoded) at absolute offset 86, for an IMU
(0x0800) record update the quaternion and the temperature; finally
advance `pos` by the record length.  A record length above 256 with
enough data makes the Go decode loop write `xorBuf[256]`, an index out
of range (`none`); a record length of 0 loops forever (fuel runs out,
also `none`).  One fuel unit is consumed per iteration, and
`data.length + 1` units are enough for every terminating run since
`pos` starts at 1 and strictly increases. -/
def parseLogLoop (data : List Nat) : Nat → Nat → LogFD → Option LogFD
  | 0, _, _ => none
  | fuel + 1, pos, st =>
    if pos < data.length - 6 then
      if data.getD pos 0 ≠ 85 then some st
      else
        let recLen := data.getD (pos + 1) 0 + (data.getD (pos + 2) 0) <<< 8
        let logRecType := data.getD (pos + 4) 0 + (data.getD (pos + 5) 0) <<< 8
        let xorVal := data.getD (pos + 6) 0
        if logRecType = 29 then
          if 256 < recLen ∧ pos + 256 < data.length then none
          else if data.length ≤ 86 then none
          else
            let xb := xorByte data pos recLen xorVal
            let flags := data.getD 86 0
            parseLogLoop data fuel (pos + recLen)
              { st with
                velX := if flags &&& 0x01 ≠ 0 then int16FromBytes (xb 12) (xb 13)
                        else st.velX
                velY := if flags &&& 0x02 ≠ 0 then int16FromBytes (xb 14) (xb 15)
                        else st.velY
                velZ := if flags &&& 0x04 ≠ 0 then
                          wrap16 (-(int16FromBytes (xb 16) (xb 17)))
                        else st.velZ
                posY := if flags &&& 0x20 ≠ 0 then leU32 (xb 18) (xb 19) (xb 20) (xb 21)
                        else st.posY
                posX := if flags &&& 0x10 ≠ 0 then leU32 (xb 22) (xb 23) (xb 24) (xb 25)
                        else st.posX
                posZ := if flags &&& 0x40 ≠ 0 then leU32 (xb 26) (xb 27) (xb 28) (xb 29)
                        else st.posZ }
        else if logRecType = 2048 then
          if 256 < recLen ∧ pos + 256 < data.length then none
          else
            let xb := xorByte data pos recLen xorVal
            parseLogLoop data fuel (pos + recLen)
              { st with
                quatW := leU32 (xb 58) (xb 59) (xb 60) (xb 61)
                quatX := leU32 (xb 62) (xb 63) (xb 64) (xb 65)
                quatY := leU32 (xb 66) (xb 67) (xb 68) (xb 69)
                quatZ := leU32 (xb 70) (xb 71) (xb 72) (xb 73)
                temperature :=
                  Int.tdiv (wrap16 ((xb 116 : Int) + 256 * xb 117)) 100 }
        else
          parseLogLoop data fuel (pos + recLen) st
    else some st

/-- The `parseLogPacket` func of flog.go: return unchanged when fewer
than 2 bytes, else scan records starting at `pos = 1`. -/
def parseLogPacket (data : List Nat) (st : LogFD) : Option LogFD :=
  if data.length < 2 then some st
  else parseLogLoop data (data.length + 1) 1 st

/-- Byte `j` of the XOR-decoded body of the log record starting at
payload offset 1 (index 0 of the decoded body is the `U` separator
itself): `data[1+j] ^ data[7]`. -/
def decodedBodyByte (data : List Nat) (j : Nat) : Nat :=
  data.getD (1 + j) 0 ^^^ data.getD 7 0

/-- The claim's reading of PositionX: a little-endian 32-bit word at
decoded-body offset 24 (this follows the spec's words, for comparison
with what the code computes). -/
def specMVOPosX (data : List Nat) : Nat :=
  leU32 (decodedBodyByte data 24) (decodedBodyByte data 25)
    (decodedBodyByte data 26) (decodedBodyByte data 27)

/-- Concrete single-record NewMVO payload for the C4 counterexample:
`U`, record length 100, type 0x001D, XOR key 0, all flag bits set at
offset 86, word 1 at decoded-body offset 22, bytes 9 at offsets 27-28,
total length 107 so the loop processes exactly one record. -/
def dataC4 : List Nat :=
  [0, 85, 100, 0, 0, 29, 0, 0,
   0, 0, 0, 0, 0, 0, 0, 0, 0, 0, 0, 0, 0, 0, 0,
   1, 0, 0, 0, 9, 9, 0, 0, 0,
   0, 0, 0, 0, 0, 0, 0, 0, 0, 0, 0, 0, 0, 0, 0, 0, 0, 0,
   0, 0, 0, 0, 0, 0, 0, 0, 0, 0, 0, 0, 0, 0, 0, 0, 0, 0,
   0, 0, 0, 0, 0, 0, 0, 0, 0, 0, 0, 0, 0, 0, 0, 0, 0, 0,
   255, 0, 0, 0, 0, 0, 0, 0, 0, 0, 0, 0, 0, 0, 0, 0, 0, 0, 0, 0, 0]

/-- Zero-initialised flight-data store. -/
def st0C4 : LogFD :=
  { velX := 0, velY := 0, velZ := 0, posX := 0, posY := 0, posZ := 0,
    quatW := 0, quatX := 0, quatY := 0, quatZ := 0, temperature := 0 }

/-!  Codec round trip (C1). -/

/-- Constant-zero CRC function used to instantiate the CRC parameters
in the concrete C1 checks. -/
def czroCrc : List Nat → Nat := fun _ => 0

/-- A well-formed TakeOff-style packet as the library builds it
(`newPacket(ptSet, msgDoTakeoff, seq, 0)` sets toDrone = true); its
derived fields size13/crc8/crc16 already hold the encoder's values for
the zero CRC functions, so only the direction flag distinguishes it
from its decode. -/
def pktC1 : Packet :=
  { header := 204, size13 := 11, crc8 := 0, fromDrone := false,
    toDrone := true, packetType := 5, packetSubtype := 0,
    messageID := 84, sequence := 1, payload := [], crc16 := 0 }

/-- A packet with a 3-byte payload, both direction flags clear, used as
the C1 witness input. -/
def pktC1w : Packet :=
  { header := 204, size13 := 0, crc8 := 0, fromDrone := false,
    toDrone := true, packetType := 5, packetSubtype := 0,
    messageID := 84, sequence := 1, payload := [1, 2, 3], crc16 := 0 }

/-- A mask with a single bit above bit 0 can never equal 1. -/
theorem land_pow2_ne_one (n k : Nat) (hk : 0 < k) : (n &&& 2 ^ k) ≠ 1 := by
  intro h
  have h0 := congrArg (Nat.testBit · 0) h
  simp only [Nat.testBit_land] at h0
  rw [Nat.testBit_two_pow_of_ne (show k ≠ 0 by omega)] at h0
  simp [Nat.testBit] at h0

/-- Masking with 0x80 never yields 1. -/
theorem land_128_ne_one (n : Nat) : n &&& 128 ≠ 1 := by
  have h := land_pow2_ne_one n 7 (by norm_num)
  norm_num at h
  exact h

/-- Masking with 0x40 never yields 1. -/
theorem land_64_ne_one (n : Nat) : n &&& 64 ≠ 1 := by
  have h := land_pow2_ne_one n 6 (by norm_num)
  norm_num at h
  exact h

/-- C9: whichever buffer is decoded, the comparisons
`(buff[4] & 0x80) == 1` and `(buff[4] & 0x40) == 1` in `bufferToPacket`
can never hold (the masked value is 0 or the mask itself, never 1), so
every decoded packet has both direction flags false, regardless of bits
7 and 6 of the direction/type byte. -/
theorem bufferToPacket_flags_false (buff : List Nat) (pkt : Packet)
    (h : bufferToPacket buff = some pkt) :
    pkt.fromDrone = false ∧ pkt.toDrone = false := by
  unfold bufferToPacket at h
  split at h
  case _ b0 b1 b2 b3 b4 b5 b6 b7 b8 =>
    dsimp only [] at h
    split at h
    case _ payload c16lo c16hi =>
      rw [Option.some.injEq] at h
      subst h
      constructor
      · simp [land_128_ne_one]
      · simp [land_64_ne_one]
    case _ => exact absurd h (by simp)
  case _ => exact absurd h (by simp)

/-- Witness for C9 at a concrete buffer with bits 7 and 6 of byte 4 set. -/
theorem bufferToPacket_flags_false_witness :
    bufferToPacket [204, 88, 0, 0, 255, 0, 0, 0, 0, 0, 0] = some pktC9 ∧
    pktC9.fromDrone = false ∧ pktC9.toDrone = false :=
  ⟨by decide,
   (bufferToPacket_flags_false [204, 88, 0, 0, 255, 0, 0, 0, 0, 0, 0] pktC9 (by decide)).1,
   (bufferToPacket_flags_false [204, 88, 0, 0, 255, 0, 0, 0, 0, 0, 0] pktC9 (by decide)).2⟩

/-- C6: an 11-byte control datagram with the correct 0xCC header whose
13-bit size field is 1 (bytes 1,2 = 08 00) makes `bufferToPacket`
compute `payloadSize = size13 - 11` in uint16 arithmetic as 65526 and
then slice `buff[9 : 9+65526]` out of the receive buffer: a runtime
panic (modelled as `none`), which kills the receive loop.  The Go
receive buffer is 4096 bytes; the requested slice end 65535 exceeds it
(and any buffer shorter than 65535 bytes) just as it exceeds this
11-byte model input.  The claim that decoding any datagram content
performs no out-of-bounds access is therefore wrong about the code. -/
theorem bufferToPacket_undersize_panics :
    bufferToPacket [204, 8, 0, 0, 0, 0, 0, 0, 0, 0, 0] = none := by
  decide

/-- Counterexample for C2: with all four axes neutral the first six
payload bytes are 00 04 20 00 01 08, not the claimed 00 08 00 40 00 02
(whose 11-bit slots would decode to 0, 1, 256, 256 rather than 1024). -/
theorem stickPayloadAxes_neutral_bytes_ne_claimed :
    stickPayloadAxes 0 0 0 0 false ≠ [0x00, 0x08, 0x00, 0x40, 0x00, 0x02] := by
  decide

/-- C2 (amended): neutral sticks pack 1024 into each 11-bit slot of the
48-bit field and serialise to the six bytes 00 04 20 00 01 08; full
right on Rx (+32767) puts 1683 in the Rx slot and full left (-32768)
puts 364 there, per the mapping floor(v/49.672) + 1024. -/
theorem stickPayloadAxes_neutral_and_extremes :
    stickPayloadAxes 0 0 0 0 false = [0x00, 0x04, 0x20, 0x00, 0x01, 0x08] ∧
    packedAxes 0 0 0 0 false &&& 0x07ff = 1024 ∧
    (packedAxes 0 0 0 0 false >>> 11) &&& 0x07ff = 1024 ∧
    (packedAxes 0 0 0 0 false >>> 22) &&& 0x07ff = 1024 ∧
    (packedAxes 0 0 0 0 false >>> 33) &&& 0x07ff = 1024 ∧
    packedAxes 32767 0 0 0 false &&& 0x07ff = 1683 ∧
    packedAxes (-32768) 0 0 0 false &&& 0x07ff = 364 := by
  decide

/-- C7: for caller-range yaws the rotational autopilot normalises both
yaws into 0..359, and the computed delta is congruent to the raw
difference mod 360 with absolute value at most 180 (the shortest
rotation); in particular target 170 with current yaw -170 gives -20. -/
theorem yawDelta_shortest_path (t c : Int)
    (ht1 : -180 ≤ t) (ht2 : t ≤ 180) (hc1 : -180 ≤ c) (hc2 : c ≤ 180) :
    (0 ≤ adjustYaw t ∧ adjustYaw t ≤ 359 ∧ 0 ≤ adjustYaw c ∧ adjustYaw c ≤ 359) ∧
    int16Abs (yawDelta t c) ≤ 180 ∧
    yawDelta t c % 360 = (adjustYaw t - adjustYaw c) % 360 ∧
    yawDelta 170 (-170) = -20 := by
  refine ⟨?_, ?_, ?_, by decide⟩
  · simp only [adjustYaw]
    split_ifs <;> omega
  · simp only [yawDelta, adjustYaw, int16Abs]
    split_ifs <;> omega
  · simp only [yawDelta, adjustYaw, int16Abs]
    split_ifs <;> omega

/-- Witness for C7 at target 170 and current yaw -170. -/
theorem yawDelta_shortest_path_witness :
    ((0 ≤ adjustYaw 170 ∧ adjustYaw 170 ≤ 359 ∧
      0 ≤ adjustYaw (-170) ∧ adjustYaw (-170) ≤ 359) ∧
     int16Abs (yawDelta 170 (-170)) ≤ 180 ∧
     yawDelta 170 (-170) % 360 = (adjustYaw 170 - adjustYaw (-170)) % 360 ∧
     yawDelta 170 (-170) = -20) :=
  yawDelta_shortest_path 170 (-170) (by decide) (by decide) (by decide) (by decide)

/-- Counterexample for C8: a vertical start call issued while the
vertical flag is already set but with an out-of-range target (400 dm)
returns the navigation-limit error, not the already-navigating error,
because the range check precedes the activity check. -/
theorem autoStart_busy_not_always_already_navigating :
    (AutoFlyToHeightConfig
        { autoHeight := true, autoYaw := false, autoXY := false,
          homeValid := false, ctrlLx := 0, ctrlLy := 0, ctrlRx := 0, ctrlRy := 0 }
        400 1 0).2 ≠ some "Already navigating vertically" := by
  decide

/-- C8 (amended): a start call on an axis group whose flag is already
set returns the already-navigating error, provided the target passes
the range check that the code performs first; in every error case the
state (stick axes included) is returned unchanged. -/
theorem autoStart_already_navigating (st : TelloCtl)
    (dm targetYaw : Int) (tx ty speed : Rat) (tol : Int) (tolxy : Rat)
    (hH : st.autoHeight = true) (hY : st.autoYaw = true) (hX : st.autoXY = true)
    (hdm1 : -300 ≤ dm) (hdm2 : dm ≤ 300)
    (hyaw1 : -180 ≤ targetYaw) (hyaw2 : targetYaw ≤ 180)
    (htx1 : -200 ≤ tx) (htx2 : tx ≤ 200) (hty1 : -200 ≤ ty) (hty2 : ty ≤ 200) :
    AutoFlyToHeightConfig st dm speed tol =
      (st, some "Already navigating vertically") ∧
    AutoTurnToYawConfig st targetYaw speed tol =
      (st, some "Already navigating rotationally") ∧
    AutoFlyToXYConfig st tx ty speed tolxy =
      (st, some "Already AutoFlying horizontally") := by
  refine ⟨?_, ?_, ?_⟩
  · unfold AutoFlyToHeightConfig
    rw [if_neg (show ¬(dm > 300 ∨ dm < -300) by omega)]
    simp [hH]
  · unfold AutoTurnToYawConfig
    rw [if_neg (show ¬(targetYaw < -180 ∨ targetYaw > 180) by omega)]
    simp [hY]
  · unfold AutoFlyToXYConfig
    rw [if_neg (show ¬(tx > 200 ∨ ty > 200 ∨ tx < -200 ∨ ty < -200) by
      push_neg
      exact ⟨htx2, hty2, htx1, hty1⟩)]
    simp [hX]

/-- Witness for C8: all three flags set, in-range targets. -/
theorem autoStart_already_navigating_witness :
    (AutoFlyToHeightConfig
        { autoHeight := true, autoYaw := true, autoXY := true, homeValid := true,
          ctrlLx := 1, ctrlLy := 2, ctrlRx := 3, ctrlRy := 4 } 50 1 0 =
      ({ autoHeight := true, autoYaw := true, autoXY := true, homeValid := true,
         ctrlLx := 1, ctrlLy := 2, ctrlRx := 3, ctrlRy := 4 },
       some "Already navigating vertically")) ∧
    (AutoTurnToYawConfig
        { autoHeight := true, autoYaw := true, autoXY := true, homeValid := true,
          ctrlLx := 1, ctrlLy := 2, ctrlRx := 3, ctrlRy := 4 } 90 1 0 =
      ({ autoHeight := true, autoYaw := true, autoXY := true, homeValid := true,
         ctrlLx := 1, ctrlLy := 2, ctrlRx := 3, ctrlRy := 4 },
       some "Already navigating rotationally")) ∧
    (AutoFlyToXYConfig
        { autoHeight := true, autoYaw := true, autoXY := true, homeValid := true,
          ctrlLx := 1, ctrlLy := 2, ctrlRx := 3, ctrlRy := 4 } 5 5 1 1 =
      ({ autoHeight := true, autoYaw := true, autoXY := true, homeValid := true,
         ctrlLx := 1, ctrlLy := 2, ctrlRx := 3, ctrlRy := 4 },
       some "Already AutoFlying horizontally")) :=
  autoStart_already_navigating
    { autoHeight := true, autoYaw := true, autoXY := true, homeValid := true,
      ctrlLx := 1, ctrlLy := 2, ctrlRx := 3, ctrlRy := 4 }
    50 90 5 5 1 0 1
    rfl rfl rfl
    (by decide) (by decide) (by decide) (by decide)
    (by norm_num) (by norm_num) (by norm_num) (by norm_num)

/-- Counterexample for C3: with target 2 dm, height 0 and tolerance 4,
`|delta| = 2 ≤ tolerance`, yet the tick does not stop the navigation:
the `delta > 0` case fires first and sets the slow ascent speed. -/
theorem autoFlyToHeightTick_tolerance_not_first :
    int16Abs (wrap16 ((2 : Int) - 0)) ≤ 4 ∧
    (autoFlyToHeightTick 2 0 1 4 { ctrlLy := 0, autoHeight := true }).autoHeight = true ∧
    (autoFlyToHeightTick 2 0 1 4 { ctrlLy := 0, autoHeight := true }).ctrlLy = 16384 := by
  norm_num [autoFlyToHeightTick, truncQ, int16Abs, wrap16]

/-- C3 (amended): on a tick with the vertical autopilot active, with
delta the int16 (wrapping) difference `dm - height` as the Go code
computes it, the speed cases are checked before the tolerance case, so
the stick is set to +fast for delta > 4, +slow for 0 < delta <= 4,
-fast for delta < -4 and -slow for -4 <= delta < 0; the autopilot
stops and marks the navigation complete only when delta = 0 (and the
tolerance is nonnegative; a negative tolerance leaves the state
unchanged).  The wrap is reachable: dm = 300, height = -32768 gives
delta = -32468, the -fast case. -/
theorem autoFlyToHeightTick_cases (dm height : Int) (speed : Rat)
    (tolerance : Int) (st : HeightCtl) (hActive : st.autoHeight = true) :
    (wrap16 (dm - height) > 4 →
      autoFlyToHeightTick dm height speed tolerance st =
        { st with ctrlLy := truncQ (32767 * speed) }) ∧
    (0 < wrap16 (dm - height) ∧ wrap16 (dm - height) ≤ 4 →
      autoFlyToHeightTick dm height speed tolerance st =
        { st with ctrlLy := truncQ (16384 * speed) }) ∧
    (wrap16 (dm - height) < -4 →
      autoFlyToHeightTick dm height speed tolerance st =
        { st with ctrlLy := truncQ (-32767 * speed) }) ∧
    (-4 ≤ wrap16 (dm - height) ∧ wrap16 (dm - height) < 0 →
      autoFlyToHeightTick dm height speed tolerance st =
        { st with ctrlLy := truncQ (-16384 * speed) }) ∧
    (wrap16 (dm - height) = 0 ∧ 0 ≤ tolerance →
      autoFlyToHeightTick dm height speed tolerance st =
        { st with autoHeight := false }) ∧
    (wrap16 (dm - height) = 0 ∧ tolerance < 0 →
      autoFlyToHeightTick dm height speed tolerance st = st) := by
  unfold autoFlyToHeightTick
  rw [hActive]
  simp only [int16Abs]
  generalize wrap16 (dm - height) = d
  refine ⟨?_, ?_, ?_, ?_, ?_, ?_⟩ <;> intro h <;> split_ifs <;>
    first
    | rfl
    | omega
    | simp_all

/-- Witness for C3 at target 5 dm, height 0, speed 1, tolerance 0. -/
theorem autoFlyToHeightTick_cases_witness :
    autoFlyToHeightTick 5 0 1 0 { ctrlLy := 0, autoHeight := true } =
      { ctrlLy := truncQ (32767 * 1), autoHeight := true } :=
  (autoFlyToHeightTick_cases 5 0 1 0 { ctrlLy := 0, autoHeight := true } rfl).1
    (by norm_num [wrap16])

/-- The counter after any interleaving of sends is the number of
sequenced commands so far, mod 2^16; stick updates never advance it. -/
theorem seqAfterOps_eq_countCmds (ops : List CtrlOp) :
    ∀ s : Nat, s < 65536 → seqAfterOps s ops = (s + countCmds ops) % 65536 := by
  induction ops with
  | nil => intro s hs; simp [seqAfterOps, countCmds, Nat.mod_eq_of_lt hs]
  | cons op rest ih =>
    intro s hs
    cases op with
    | cmd =>
      have h1 := ih ((s + 1) % 65536) (Nat.mod_lt _ (by norm_num))
      simp only [seqAfterOps, List.foldl_cons, stepSeq] at h1 ⊢
      rw [h1, countCmds]
      omega
    | stick =>
      have h1 := ih s hs
      simp only [seqAfterOps, List.foldl_cons, stepSeq] at h1 ⊢
      rw [h1, countCmds]

/-- Counterexample for C5: after 65536 sequenced commands the counter
has wrapped back to 0, so the 65537th command carries the same wire
sequence value (1) as the very first command of the connection: the
value is reused. -/
theorem ctrlSeq_wraps_and_reuses :
    sentSeq (seqAfterOps 0 (List.replicate 65536 CtrlOp.cmd)) CtrlOp.cmd =
      sentSeq (seqAfterOps 0 []) CtrlOp.cmd := by
  have hc : ∀ n : Nat, countCmds (List.replicate n CtrlOp.cmd) = n := by
    intro n
    induction n with
    | zero => rfl
    | succ k ih => simpa [List.replicate_succ, countCmds] using ih
  rw [seqAfterOps_eq_countCmds _ 0 (by norm_num), hc]
  rfl

/-- C5 (amended): each sequenced command advances the counter by exactly
one mod 2^16 and sends the new value; stick messages send 0 and leave
the counter unchanged; consequently two sequenced commands of one
connection whose numbers of preceding sequenced commands differ by less
than 2^16 carry distinct sequence values (reuse occurs exactly at
multiples of 2^16 commands). -/
theorem ctrlSeq_distinct_within_wrap (p q : List CtrlOp)
    (h : countCmds p < countCmds q) (hw : countCmds q - countCmds p < 65536) :
    sentSeq (seqAfterOps 0 p) CtrlOp.cmd ≠ sentSeq (seqAfterOps 0 q) CtrlOp.cmd ∧
    (∀ s : Nat, stepSeq s CtrlOp.stick = s ∧ sentSeq s CtrlOp.stick = 0) ∧
    (∀ s : Nat, stepSeq s CtrlOp.cmd = (s + 1) % 65536 ∧
      sentSeq s CtrlOp.cmd = stepSeq s CtrlOp.cmd) := by
  refine ⟨?_, fun s => ⟨rfl, rfl⟩, fun s => ⟨rfl, rfl⟩⟩
  rw [seqAfterOps_eq_countCmds p 0 (by norm_num),
    seqAfterOps_eq_countCmds q 0 (by norm_num)]
  simp only [sentSeq, Nat.zero_add]
  omega

/-- Witness for C5: the first command (sequence 1) and a command after
one stick update and one command (sequence 2) carry distinct values. -/
theorem ctrlSeq_distinct_within_wrap_witness :
    sentSeq (seqAfterOps 0 []) CtrlOp.cmd ≠
      sentSeq (seqAfterOps 0 [CtrlOp.stick, CtrlOp.cmd]) CtrlOp.cmd ∧
    (∀ s : Nat, stepSeq s CtrlOp.stick = s ∧ sentSeq s CtrlOp.stick = 0) ∧
    (∀ s : Nat, stepSeq s CtrlOp.cmd = (s + 1) % 65536 ∧
      sentSeq s CtrlOp.cmd = stepSeq s CtrlOp.cmd) :=
  ctrlSeq_distinct_within_wrap [] [CtrlOp.stick, CtrlOp.cmd] (by decide) (by decide)

/-- The code's loop over all files equals the claim's count over the
JPEG sublist. -/
theorem saveLoop_eq_specWrittenCount (writeOk : String → List Nat → Bool)
    (pre : String) (files : List GoFile) :
    ∀ np : Nat, saveLoop writeOk pre files np =
      specWrittenCount writeOk pre (files.filter (·.isJPEG)) np := by
  induction files with
  | nil => intro np; rfl
  | cons f rest ih =>
    intro np
    by_cases hf : f.isJPEG
    · rw [List.filter_cons_of_pos (by simpa using hf)]
      by_cases hw : writeOk (pre ++ "_" ++ toString np ++ ".jpg") f.bytes
      · simp [saveLoop, specWrittenCount, hf, hw, ih]
      · simp [saveLoop, specWrittenCount, hf, hw]
    · rw [List.filter_cons_of_neg (by simpa using hf)]
      simp [saveLoop, hf, ih]

/-- C10: `SaveAllPics` always returns a nil error and always clears the
completed-files list, even when a write fails, and the count it returns
is the number of JPEG files written before the first failing write. -/
theorem SaveAllPics_nil_error_clears_files
    (writeOk : String → List Nat → Bool) (pre : String) (files : List GoFile) :
    (SaveAllPics writeOk pre files).2.1 = none ∧
    (SaveAllPics writeOk pre files).2.2 = [] ∧
    (SaveAllPics writeOk pre files).1 =
      specWrittenCount writeOk pre (files.filter (·.isJPEG)) 0 :=
  ⟨rfl, rfl, saveLoop_eq_specWrittenCount writeOk pre files 0⟩

/-- Counterexample for C4: on this NewMVO record the code stores
PositionX from decoded-body offsets 22-25 (word 1), which differs from
the claim's offset-24 word. -/
theorem parseLogPacket_posX_offset_ne_claimed :
    (parseLogPacket dataC4 st0C4).map (·.posX) = some 1 ∧
    (parseLogPacket dataC4 st0C4).map (·.posX) ≠ some (specMVOPosX dataC4) := by
  constructor
  · decide
  · decide

/-- C4 (amended): parsing a payload holding a single NewMVO record
updates VelocityX/Y/Z only when flag bits 0x01/0x02/0x04 are set, each
a signed-16 little-endian value at decoded-body offsets 12, 14, 16 with
VelocityZ negated, and updates PositionX/Y/Z only when flag bits
0x10/0x20/0x40 are set, each a little-endian 32-bit float word at
decoded-body offsets 22, 18, 26 respectively (not 24, 20, 28; MVO Y
still precedes X in the decoded buffer). -/
theorem parseLogPacket_newMVO_fields (data : List Nat) (st : LogFD) (recLen : Nat)
    (hrec : data.getD 2 0 + (data.getD 3 0) <<< 8 = recLen)
    (hlen : 86 < data.length)
    (hsep : data.getD 1 0 = 85)
    (htype : data.getD 5 0 + (data.getD 6 0) <<< 8 = 29)
    (hr1 : 29 < recLen) (hr2 : recLen ≤ 256)
    (hsingle : data.length - 6 ≤ 1 + recLen) :
    parseLogPacket data st = some
      { st with
        velX := if data.getD 86 0 &&& 0x01 ≠ 0 then
            int16FromBytes (decodedBodyByte data 12) (decodedBodyByte data 13)
          else st.velX
        velY := if data.getD 86 0 &&& 0x02 ≠ 0 then
            int16FromBytes (decodedBodyByte data 14) (decodedBodyByte data 15)
          else st.velY
        velZ := if data.getD 86 0 &&& 0x04 ≠ 0 then
            wrap16 (-(int16FromBytes (decodedBodyByte data 16) (decodedBodyByte data 17)))
          else st.velZ
        posY := if data.getD 86 0 &&& 0x20 ≠ 0 then
            leU32 (decodedBodyByte data 18) (decodedBodyByte data 19)
              (decodedBodyByte data 20) (decodedBodyByte data 21)
          else st.posY
        posX := if data.getD 86 0 &&& 0x10 ≠ 0 then
            leU32 (decodedBodyByte data 22) (decodedBodyByte data 23)
              (decodedBodyByte data 24) (decodedBodyByte data 25)
          else st.posX
        posZ := if data.getD 86 0 &&& 0x40 ≠ 0 then
            leU32 (decodedBodyByte data 26) (decodedBodyByte data 27)
              (decodedBodyByte data 28) (decodedBodyByte data 29)
          else st.posZ } := by
  have hxb : ∀ j : Nat, j ≤ 29 →
      xorByte data 1 recLen (data.getD 7 0) j = decodedBodyByte data j := by
    intro j hj
    unfold xorByte decodedBodyByte
    rw [if_pos ⟨by omega, by omega⟩]
  unfold parseLogPacket
  rw [if_neg (by omega)]
  conv_lhs => rw [parseLogLoop]
  rw [if_pos (by omega : 1 < data.length - 6), hsep]
  rw [if_neg (by simp)]
  dsimp only []
  rw [hrec, htype]
  rw [if_pos rfl]
  rw [if_neg (by omega), if_neg (by omega)]
  obtain ⟨m, hm⟩ : ∃ m, data.length = m + 1 := ⟨data.length - 1, by omega⟩
  have hm6 : data.length - 6 ≤ 1 + recLen := hsingle
  rw [hm] at hm6
  rw [hm]
  conv_lhs => rw [parseLogLoop]
  rw [if_neg (by omega)]
  simp only [hxb 12 (by norm_num), hxb 13 (by norm_num),
    hxb 14 (by norm_num), hxb 15 (by norm_num),
    hxb 16 (by norm_num), hxb 17 (by norm_num),
    hxb 18 (by norm_num), hxb 19 (by norm_num),
    hxb 20 (by norm_num), hxb 21 (by norm_num),
    hxb 22 (by norm_num), hxb 23 (by norm_num),
    hxb 24 (by norm_num), hxb 25 (by norm_num),
    hxb 26 (by norm_num), hxb 27 (by norm_num),
    hxb 28 (by norm_num), hxb 29 (by norm_num)]

/-- Witness for C4 on the concrete single-record payload `dataC4`. -/
theorem parseLogPacket_newMVO_fields_witness :
    parseLogPacket dataC4 st0C4 = some
      { st0C4 with
        velX := if dataC4.getD 86 0 &&& 0x01 ≠ 0 then
            int16FromBytes (decodedBodyByte dataC4 12) (decodedBodyByte dataC4 13)
          else st0C4.velX
        velY := if dataC4.getD 86 0 &&& 0x02 ≠ 0 then
            int16FromBytes (decodedBodyByte dataC4 14) (decodedBodyByte dataC4 15)
          else st0C4.velY
        velZ := if dataC4.getD 86 0 &&& 0x04 ≠ 0 then
            wrap16 (-(int16FromBytes (decodedBodyByte dataC4 16) (decodedBodyByte dataC4 17)))
          else st0C4.velZ
        posY := if dataC4.getD 86 0 &&& 0x20 ≠ 0 then
            leU32 (decodedBodyByte dataC4 18) (decodedBodyByte dataC4 19)
              (decodedBodyByte dataC4 20) (decodedBodyByte dataC4 21)
          else st0C4.posY
        posX := if dataC4.getD 86 0 &&& 0x10 ≠ 0 then
            leU32 (decodedBodyByte dataC4 22) (decodedBodyByte dataC4 23)
              (decodedBodyByte dataC4 24) (decodedBodyByte dataC4 25)
          else st0C4.posX
        posZ := if dataC4.getD 86 0 &&& 0x40 ≠ 0 then
            leU32 (decodedBodyByte dataC4 26) (decodedBodyByte dataC4 27)
              (decodedBodyByte dataC4 28) (decodedBodyByte dataC4 29)
          else st0C4.posZ } :=
  parseLogPacket_newMVO_fields dataC4 st0C4 100 (by decide) (by decide)
    (by decide) (by decide) (by decide) (by decide) (by decide)

/-- Recombination of the two little-endian bytes of a 16-bit value. -/
theorem byte_recomb (x : Nat) (hx : x < 65536) :
    (((x >>> 8) % 256) <<< 8) ||| (x % 256) = x := by
  apply Nat.eq_of_testBit_eq
  intro i
  have h256 : (256 : Nat) = 2 ^ 8 := by norm_num
  rw [Nat.testBit_lor, Nat.testBit_shiftLeft, h256, Nat.testBit_mod_two_pow,
    Nat.testBit_mod_two_pow, Nat.testBit_shiftRight]
  rcases lt_or_le i 8 with hi | hi
  · simp [show ¬(i ≥ 8) by omega, show i < 8 by omega]
  · rcases lt_or_le i 16 with hi2 | hi2
    · have h8 : i - 8 < 8 := by omega
      simp [show i ≥ 8 by omega, h8, show 8 + (i - 8) = i by omega]
    · have hb : x.testBit i = false :=
        Nat.testBit_lt_two_pow (lt_of_lt_of_le hx (by
          calc (65536:Nat) = 2 ^ 16 := by norm_num
          _ ≤ 2 ^ i := Nat.pow_le_pow_right (by norm_num) hi2))
      have h8 : ¬ (i - 8 < 8) := by omega
      simp [hb, h8]

theorem size13_roundtrip (L : Nat) (hL : L < 8192) :
    (((L <<< 3) % 256) + (((L >>> 5) % 256) <<< 8)) >>> 3 = L := by
  simp only [Nat.shiftLeft_eq, Nat.shiftRight_eq_div_pow]
  norm_num
  omega

theorem b4_fields (s p : Fin 8) (t f : Bool) :
    ((((((s : Nat) + (((p : Nat) <<< 3) % 256)) % 256)
        ||| (if t then 64 else 0)) ||| (if f then 128 else 0)) >>> 3) &&& 7 = p ∧
    (((((s : Nat) + (((p : Nat) <<< 3) % 256)) % 256)
        ||| (if t then 64 else 0)) ||| (if f then 128 else 0)) &&& 7 = s := by
  revert s p t f
  decide

set_option maxHeartbeats 1000000 in
/-- C1 (amended): encoding a well-formed packet (fields in range,
payload up to 1024 bytes) yields a frame of exactly 11 + payload-length
bytes, and decoding that frame recovers the packet type, subtype,
message ID, sequence and payload exactly and fills the derived fields
(size13 and the two CRCs) with the serialised values, but forces both
direction flags to false whatever they were: full equality
decode(encode(P)) = P therefore holds only for packets whose direction
flags are false and whose size13/crc8/crc16 fields already carry the
derived values. -/
theorem packetToBuffer_bufferToPacket (crc8fn crc16fn : List Nat → Nat)
    (hc16 : ∀ l, crc16fn l < 65536)
    (p : Packet) (hpt : p.packetType < 8) (hps : p.packetSubtype < 8)
    (hmid : p.messageID < 65536) (hseq : p.sequence < 65536)
    (hpl : p.payload.length ≤ 1024) :
    (packetToBuffer crc8fn crc16fn p).length = 11 + p.payload.length ∧
    bufferToPacket (packetToBuffer crc8fn crc16fn p) = some
      { header := p.header
        size13 := 11 + p.payload.length
        crc8 := crc8fn [p.header, ((11 + p.payload.length) <<< 3) % 256,
                        ((11 + p.payload.length) >>> 5) % 256]
        fromDrone := false
        toDrone := false
        packetType := p.packetType
        packetSubtype := p.packetSubtype
        messageID := p.messageID
        sequence := p.sequence
        payload := p.payload
        crc16 := crc16fn
          ([p.header, ((11 + p.payload.length) <<< 3) % 256,
            ((11 + p.payload.length) >>> 5) % 256,
            crc8fn [p.header, ((11 + p.payload.length) <<< 3) % 256,
                    ((11 + p.payload.length) >>> 5) % 256],
            (((p.packetSubtype + ((p.packetType <<< 3) % 256)) % 256)
              ||| (if p.toDrone then 0x40 else 0)) ||| (if p.fromDrone then 0x80 else 0),
            p.messageID % 256, (p.messageID >>> 8) % 256,
            p.sequence % 256, (p.sequence >>> 8) % 256] ++ p.payload) } := by
  unfold packetToBuffer minPktSize
  dsimp only []
  set N := p.payload.length with hN
  set b1 := ((11 + N) <<< 3) % 256 with hb1
  set b2 := ((11 + N) >>> 5) % 256 with hb2
  set b3 := crc8fn [p.header, b1, b2] with hb3
  set b4 := (((p.packetSubtype + ((p.packetType <<< 3) % 256)) % 256)
              ||| (if p.toDrone then 0x40 else 0)) ||| (if p.fromDrone then 0x80 else 0) with hb4
  set c16 := crc16fn ([p.header, b1, b2, b3, b4,
      p.messageID % 256, (p.messageID >>> 8) % 256,
      p.sequence % 256, (p.sequence >>> 8) % 256] ++ p.payload) with hc
  have hlen : (([p.header, b1, b2, b3, b4,
      p.messageID % 256, (p.messageID >>> 8) % 256,
      p.sequence % 256, (p.sequence >>> 8) % 256] ++ p.payload) ++
      [c16 % 256, (c16 >>> 8) % 256]).length = 11 + N := by
    simp [List.length_append]
    omega
  refine ⟨hlen, ?_⟩
  rw [List.append_assoc]
  have g0 : ([p.header, b1, b2, b3, b4,
      p.messageID % 256, (p.messageID >>> 8) % 256,
      p.sequence % 256, (p.sequence >>> 8) % 256] ++
      (p.payload ++ [c16 % 256, (c16 >>> 8) % 256])).get? 0 = some p.header := rfl
  have g1 : ([p.header, b1, b2, b3, b4,
      p.messageID % 256, (p.messageID >>> 8) % 256,
      p.sequence % 256, (p.sequence >>> 8) % 256] ++
      (p.payload ++ [c16 % 256, (c16 >>> 8) % 256])).get? 1 = some b1 := rfl
  have g2 : ([p.header, b1, b2, b3, b4,
      p.messageID % 256, (p.messageID >>> 8) % 256,
      p.sequence % 256, (p.sequence >>> 8) % 256] ++
      (p.payload ++ [c16 % 256, (c16 >>> 8) % 256])).get? 2 = some b2 := rfl
  have g3 : ([p.header, b1, b2, b3, b4,
      p.messageID % 256, (p.messageID >>> 8) % 256,
      p.sequence % 256, (p.sequence >>> 8) % 256] ++
      (p.payload ++ [c16 % 256, (c16 >>> 8) % 256])).get? 3 = some b3 := rfl
  have g4 : ([p.header, b1, b2, b3, b4,
      p.messageID % 256, (p.messageID >>> 8) % 256,
      p.sequence % 256, (p.sequence >>> 8) % 256] ++
      (p.payload ++ [c16 % 256, (c16 >>> 8) % 256])).get? 4 = some b4 := rfl
  have g5 : ([p.header, b1, b2, b3, b4,
      p.messageID % 256, (p.messageID >>> 8) % 256,
      p.sequence % 256, (p.sequence >>> 8) % 256] ++
      (p.payload ++ [c16 % 256, (c16 >>> 8) % 256])).get? 5 = some (p.messageID % 256) := rfl
  have g6 : ([p.header, b1, b2, b3, b4,
      p.messageID % 256, (p.messageID >>> 8) % 256,
      p.sequence % 256, (p.sequence >>> 8) % 256] ++
      (p.payload ++ [c16 % 256, (c16 >>> 8) % 256])).get? 6 = some ((p.messageID >>> 8) % 256) := rfl
  have g7 : ([p.header, b1, b2, b3, b4,
      p.messageID % 256, (p.messageID >>> 8) % 256,
      p.sequence % 256, (p.sequence >>> 8) % 256] ++
      (p.payload ++ [c16 % 256, (c16 >>> 8) % 256])).get? 7 = some (p.sequence % 256) := rfl
  have g8 : ([p.header, b1, b2, b3, b4,
      p.messageID % 256, (p.messageID >>> 8) % 256,
      p.sequence % 256, (p.sequence >>> 8) % 256] ++
      (p.payload ++ [c16 % 256, (c16 >>> 8) % 256])).get? 8 = some ((p.sequence >>> 8) % 256) := rfl
  unfold bufferToPacket
  rw [g0, g1, g2, g3, g4, g5, g6, g7, g8]
  dsimp only []
  have hsz : (b1 + b2 <<< 8) >>> 3 = 11 + N := by
    rw [hb1, hb2]
    exact size13_roundtrip (11 + N) (by omega)
  rw [hsz]
  have hpsz : (11 + N + 65536 - 11) % 65536 = N := by omega
  rw [hpsz]
  have hblen : ([p.header, b1, b2, b3, b4,
      p.messageID % 256, (p.messageID >>> 8) % 256,
      p.sequence % 256, (p.sequence >>> 8) % 256] ++
      (p.payload ++ [c16 % 256, (c16 >>> 8) % 256])).length = 11 + N := by
    simp [List.length_append]
    omega
  rw [hblen]
  have hdrop : List.drop 9 ([p.header, b1, b2, b3, b4,
      p.messageID % 256, (p.messageID >>> 8) % 256,
      p.sequence % 256, (p.sequence >>> 8) % 256] ++
      (p.payload ++ [c16 % 256, (c16 >>> 8) % 256])) =
      p.payload ++ [c16 % 256, (c16 >>> 8) % 256] := rfl
  have hopt : (if N > 0 then
      if 9 + N ≤ 11 + N then
        some (List.take N (List.drop 9 ([p.header, b1, b2, b3, b4,
          p.messageID % 256, (p.messageID >>> 8) % 256,
          p.sequence % 256, (p.sequence >>> 8) % 256] ++
          (p.payload ++ [c16 % 256, (c16 >>> 8) % 256]))))
      else none
    else some []) = some p.payload := by
    by_cases hn : N > 0
    · rw [if_pos hn, if_pos (by omega), hdrop]
      rw [Option.some.injEq, hN]
      exact List.take_left p.payload [c16 % 256, (c16 >>> 8) % 256]
    · rw [if_neg hn]
      have h0 : p.payload = [] := by
        rw [← List.length_eq_zero]
        omega
      rw [h0]
  rw [hopt]
  have hi2 : (11 + N + 65536 - 2) % 65536 = 9 + N := by omega
  have hi1 : (11 + N + 65536 - 1) % 65536 = 10 + N := by omega
  rw [hi2, hi1]
  have hg9 : ([p.header, b1, b2, b3, b4,
      p.messageID % 256, (p.messageID >>> 8) % 256,
      p.sequence % 256, (p.sequence >>> 8) % 256] ++
      (p.payload ++ [c16 % 256, (c16 >>> 8) % 256])).get? (9 + N) =
      some (c16 % 256) := by
    rw [List.get?_append_right (by simp only [List.length_cons, List.length_nil]; omega)]
    have h9 : 9 + N - ([p.header, b1, b2, b3, b4,
        p.messageID % 256, (p.messageID >>> 8) % 256,
        p.sequence % 256, (p.sequence >>> 8) % 256] : List Nat).length = N := by
      simp
    rw [h9, List.get?_append_right (by omega), hN]
    simp
  have hg10 : ([p.header, b1, b2, b3, b4,
      p.messageID % 256, (p.messageID >>> 8) % 256,
      p.sequence % 256, (p.sequence >>> 8) % 256] ++
      (p.payload ++ [c16 % 256, (c16 >>> 8) % 256])).get? (10 + N) =
      some ((c16 >>> 8) % 256) := by
    rw [List.get?_append_right (by simp only [List.length_cons, List.length_nil]; omega)]
    have h10 : 10 + N - ([p.header, b1, b2, b3, b4,
        p.messageID % 256, (p.messageID >>> 8) % 256,
        p.sequence % 256, (p.sequence >>> 8) % 256] : List Nat).length = N + 1 := by
      simp
      omega
    rw [h10, List.get?_append_right (by omega), hN]
    simp
  rw [hg9, hg10]
  dsimp only []
  rw [Option.some.injEq, Packet.mk.injEq]
  refine ⟨rfl, rfl, rfl, ?_, ?_, ?_, ?_, ?_, ?_, rfl, ?_⟩
  · simp only [beq_eq_false_iff_ne, ne_eq]
    exact land_128_ne_one b4
  · simp only [beq_eq_false_iff_ne, ne_eq]
    exact land_64_ne_one b4
  · rw [hb4]
    exact (b4_fields ⟨p.packetSubtype, hps⟩ ⟨p.packetType, hpt⟩ p.toDrone p.fromDrone).1
  · rw [hb4]
    exact (b4_fields ⟨p.packetSubtype, hps⟩ ⟨p.packetType, hpt⟩ p.toDrone p.fromDrone).2
  · exact byte_recomb p.messageID hmid
  · exact byte_recomb p.sequence hseq
  · have hlt : c16 < 65536 := by rw [hc]; exact hc16 _
    simp only [Nat.shiftLeft_eq, Nat.shiftRight_eq_div_pow]
    norm_num
    omega

/-- Counterexample for C1: the round trip does not return this
well-formed 0-payload packet, because `bufferToPacket` always clears
the toDrone flag that `packetToBuffer` serialised. -/
theorem packet_roundtrip_ne_on_toDrone :
    bufferToPacket (packetToBuffer czroCrc czroCrc pktC1) ≠ some pktC1 := by
  decide

/-- Witness for C1 on a concrete 3-byte-payload packet with the zero
CRC functions. -/
theorem packetToBuffer_bufferToPacket_witness :
    (packetToBuffer czroCrc czroCrc pktC1w).length = 14 ∧
    bufferToPacket (packetToBuffer czroCrc czroCrc pktC1w) = some
      { header := 204, size13 := 14, crc8 := 0, fromDrone := false,
        toDrone := false, packetType := 5, packetSubtype := 0,
        messageID := 84, sequence := 1, payload := [1, 2, 3], crc16 := 0 } :=
  ⟨(packetToBuffer_bufferToPacket czroCrc czroCrc (fun _ => by norm_num [czroCrc])
      pktC1w (by norm_num [pktC1w]) (by norm_num [pktC1w]) (by norm_num [pktC1w])
      (by norm_num [pktC1w]) (by norm_num [pktC1w])).1,
   (packetToBuffer_bufferToPacket czroCrc czroCrc (fun _ => by norm_num [czroCrc])
      pktC1w (by norm_num [pktC1w]) (by norm_num [pktC1w]) (by norm_num [pktC1w])
      (by norm_num [pktC1w]) (by norm_num [pktC1w])).2⟩

end Tello
